import Mathlib

/-
Shallow embedding of the CatfishApp frontend (catfish_simple/frontend/src):
  - api.js        : fetchUploads, uploadImage (FormData construction, error text)
  - App.jsx       : App component state, handleFileChange, refresh, handleSubmit,
                    the preview-URL effect on [files], and the submit button guard.
Network outcomes are explicit parameters (the code awaits fetch); the object-URL
API (URL.createObjectURL / URL.revokeObjectURL) is modelled by an environment
holding the set of live URLs.
-/

/-- A selected file; only its identity matters to the client logic. -/
abbrev File := String

/-- An object URL handed out by URL.createObjectURL, identified by a counter. -/
abbrev Url := Nat

/-- One entry of an upload's signals array, as rendered by RecentView. -/
structure Signal where
  «type» : String
  severity : String
deriving Repr, DecidableEq

/-- One record returned by GET /api/uploads, with the fields the client reads. -/
structure Upload where
  id : Nat
  filename : String
  created_at : String
  risk_score : Option Int
  signals : List Signal
  advice : List String
deriving Repr, DecidableEq

/-- One part of a multipart FormData body: a file part or a string part. -/
inductive FormPart where
  | file (f : File)
  | str (s : String)
deriving Repr, DecidableEq

/-- A FormData body: ordered key/part pairs, as built by formData.append. -/
abbrev FormData := List (String × FormPart)

/-- Embeds the FormData construction in uploadImage (api.js): every file is
appended under the key "files"; each text field is appended only when truthy,
which for these controlled-input string values means non-empty.  Parameter
order matches api.js: files, profileUrl, notes, profileBio, conversationText. -/
def uploadImageForm (files : List File)
    (profileUrl notes profileBio conversationText : String) : FormData :=
  (files.map (fun f => ("files", FormPart.file f)))
    ++ (if profileUrl ≠ "" then [("profile_url", FormPart.str profileUrl)] else [])
    ++ (if notes ≠ "" then [("notes", FormPart.str notes)] else [])
    ++ (if profileBio ≠ "" then [("profile_bio", FormPart.str profileBio)] else [])
    ++ (if conversationText ≠ "" then [("conversation_text", FormPart.str conversationText)] else [])

/-- Outcome of the fetch inside fetchUploads: the fetch itself rejects, or the
response is non-2xx, or it is 2xx carrying a JSON list of uploads. -/
inductive FetchOutcome where
  | netErr (msg : String)
  | notOk
  | ok (data : List Upload)
deriving Repr, DecidableEq

/-- Embeds fetchUploads (api.js): a non-ok response throws
"Failed to load uploads"; a rejected fetch propagates its own message;
otherwise the parsed list is returned. -/
def fetchUploadsResult : FetchOutcome → Except String (List Upload)
  | .netErr msg => .error msg
  | .notOk => .error "Failed to load uploads"
  | .ok data => .ok data

/-- Outcome of the fetch inside uploadImage: the fetch rejects, or the
response is non-2xx with a body text, or it is 2xx. -/
inductive UploadOutcome where
  | netErr (msg : String)
  | notOk (body : String)
  | ok
deriving Repr, DecidableEq

/-- Embeds the error handling of uploadImage (api.js): on a non-ok response the
thrown message is the body text, or "Upload failed" when the body is empty
(JS `text || "Upload failed"`); a rejected fetch propagates its own message. -/
def uploadImageResult : UploadOutcome → Except String Unit
  | .netErr msg => .error msg
  | .notOk body => .error (if body = "" then "Upload failed" else body)
  | .ok => .ok ()

/-- The useState slots of the App component (App.jsx). -/
structure ClientState where
  activeTab : String
  files : List File
  previews : List Url
  profileUrl : String
  profileBio : String
  conversationText : String
  notes : String
  uploads : List Upload
  error : Option String
  isSubmitting : Bool
deriving Repr, DecidableEq

/-- The browser object-URL registry: the next fresh URL and the live
(created and not yet revoked) URLs, in creation order. -/
structure UrlEnv where
  nextUrl : Nat
  live : List Url
deriving Repr, DecidableEq

/-- URL.createObjectURL: returns a fresh URL and registers it as live. -/
def createObjectURL (e : UrlEnv) : UrlEnv × Url :=
  (⟨e.nextUrl + 1, e.live ++ [e.nextUrl]⟩, e.nextUrl)

/-- URL.revokeObjectURL: removes the URL from the live registry. -/
def revokeObjectURL (e : UrlEnv) (u : Url) : UrlEnv :=
  ⟨e.nextUrl, e.live.erase u⟩

/-- files.map((file) => URL.createObjectURL(file)) in the [files] effect:
one fresh object URL per file, in order. -/
def createUrls (e : UrlEnv) : List File → UrlEnv × List Url
  | [] => (e, [])
  | _ :: fs =>
    let p := createObjectURL e
    let q := createUrls p.1 fs
    (q.1, p.2 :: q.2)

/-- The useEffect on [files] (App.jsx): the cleanup of the previous run revokes
the URLs it created (held in previews), then the new run creates one URL per
currently selected file; the created list becomes the new previews value. -/
def previewEffect (e : UrlEnv) (oldUrls : List Url) (files : List File) :
    UrlEnv × List Url :=
  createUrls (oldUrls.foldl revokeObjectURL e) files

/-- The whole modelled client: component state plus the object-URL registry. -/
structure World where
  client : ClientState
  env : UrlEnv
deriving Repr, DecidableEq

/-- Array.from(event.target.files ?? []).slice(0, 5) in handleFileChange:
a missing file list becomes the empty selection, then the first 5 are kept. -/
def selectFiles (input : Option (List File)) : List File :=
  (input.getD []).take 5

/-- handleFileChange (App.jsx) together with the [files] effect it triggers:
setFiles(selected.slice(0, 5)), then previews are regenerated. -/
def applyFileChange (w : World) (input : Option (List File)) : World :=
  let fs := selectFiles input
  let r := previewEffect w.env w.client.previews fs
  ⟨{ w.client with files := fs, previews := r.2 }, r.1⟩

/-- refresh (App.jsx) applied to the component state, given the fetch outcome:
on success setUploads(data); on failure setError(err.message). -/
def refreshState (fo : FetchOutcome) (c : ClientState) : ClientState :=
  match fetchUploadsResult fo with
  | .ok data => { c with uploads := data }
  | .error msg => { c with error := some msg }

/-- The prefix of handleSubmit once validation passed:
setSubmitting(true); setError(null). -/
def submitStartState (w : World) : World :=
  ⟨{ w.client with isSubmitting := true, error := none }, w.env⟩

/-- The continuation of handleSubmit after the awaited uploadImage settles.
On success: clear files and the four text fields (event.target.reset() only
resets DOM inputs, which mirror this state), await refresh, switch to the
recent tab; the [files] effect then revokes the old previews and creates none.
On failure: setError(err.message).  The finally clause sets submitting false. -/
def submitFinish (uo : UploadOutcome) (fo : FetchOutcome) (w : World) : World :=
  match uploadImageResult uo with
  | .ok _ =>
    let c1 := { w.client with
                files := []
                profileUrl := ""
                profileBio := ""
                conversationText := ""
                notes := "" }
    let c2 := refreshState fo c1
    let c3 := { c2 with activeTab := "recent", isSubmitting := false }
    let r := previewEffect w.env w.client.previews []
    ⟨{ c3 with previews := r.2 }, r.1⟩
  | .error msg =>
    ⟨{ w.client with error := some msg, isSubmitting := false }, w.env⟩

/-- A network request issued by the client. -/
inductive NetCall where
  | getUploads
  | postUploads (body : FormData)
deriving Repr, DecidableEq

/-- handleSubmit (App.jsx) as one completed action, given both network
outcomes, returning the new state and the requests issued.  With zero files it
sets the validation error and returns before any network call; otherwise it
POSTs the FormData built by uploadImage, and on success refresh issues the GET. -/
def handleSubmit (uo : UploadOutcome) (fo : FetchOutcome) (w : World) :
    World × List NetCall :=
  if w.client.files.length = 0 then
    (⟨{ w.client with error := some "Add at least one image" }, w.env⟩, [])
  else
    let post := NetCall.postUploads (uploadImageForm w.client.files
      w.client.profileUrl w.client.notes w.client.profileBio
      w.client.conversationText)
    let w1 := submitStartState w
    match uploadImageResult uo with
    | .ok _ => (submitFinish uo fo w1, [post, NetCall.getUploads])
    | .error _ => (submitFinish uo fo w1, [post])

/-- The initial useState values of App, with an empty URL registry. -/
def initWorld : World :=
  ⟨{ activeTab := "dashboard"
     files := []
     previews := []
     profileUrl := ""
     profileBio := ""
     conversationText := ""
     notes := ""
     uploads := []
     error := none
     isSubmitting := false }, ⟨0, []⟩⟩

/-- A user- or mount-triggered client action, labelling one step. -/
inductive Act where
  | fileChange (input : Option (List File))
  | submitReject
  | submitStart
  | submitSettle (uo : UploadOutcome) (fo : FetchOutcome)
  | refreshAct (fo : FetchOutcome)
  | setTab (t : String)
  | setProfileUrl (v : String)
  | setProfileBio (v : String)
  | setConversationText (v : String)
  | setNotes (v : String)
deriving Repr, DecidableEq

/-- One client transition.  A submit event (submitReject when no file is
selected, submitStart otherwise) requires isSubmitting = false, because the
submit button carries disabled={isSubmitting}; submitSettle is the in-flight
request resolving.  The other constructors are the remaining handlers wired in
App.jsx: the file input onChange, the BottomNav onClick, the field onChange
setters, and refresh (run on mount). -/
inductive Step : World → Act → World → Prop where
  | stepFileChange (w : World) (input : Option (List File)) :
      Step w (.fileChange input) (applyFileChange w input)
  | stepSubmitReject (w : World) (hIdle : w.client.isSubmitting = false)
      (hEmpty : w.client.files = []) :
      Step w .submitReject
        ⟨{ w.client with error := some "Add at least one image" }, w.env⟩
  | stepSubmitStart (w : World) (hIdle : w.client.isSubmitting = false)
      (hFiles : w.client.files ≠ []) :
      Step w .submitStart (submitStartState w)
  | stepSubmitSettle (w : World) (uo : UploadOutcome) (fo : FetchOutcome)
      (hBusy : w.client.isSubmitting = true) :
      Step w (.submitSettle uo fo) (submitFinish uo fo w)
  | stepRefresh (w : World) (fo : FetchOutcome) :
      Step w (.refreshAct fo) ⟨refreshState fo w.client, w.env⟩
  | stepSetTab (w : World) (t : String) :
      Step w (.setTab t) ⟨{ w.client with activeTab := t }, w.env⟩
  | stepSetProfileUrl (w : World) (v : String) :
      Step w (.setProfileUrl v) ⟨{ w.client with profileUrl := v }, w.env⟩
  | stepSetProfileBio (w : World) (v : String) :
      Step w (.setProfileBio v) ⟨{ w.client with profileBio := v }, w.env⟩
  | stepSetConversationText (w : World) (v : String) :
      Step w (.setConversationText v)
        ⟨{ w.client with conversationText := v }, w.env⟩
  | stepSetNotes (w : World) (v : String) :
      Step w (.setNotes v) ⟨{ w.client with notes := v }, w.env⟩

/-- A state the client can be in after any sequence of actions from start-up. -/
def Reachable (w : World) : Prop :=
  Relation.ReflTransGen (fun a b => ∃ act, Step a act b) initWorld w

/-- A concrete upload record, for evaluating the theorems at explicit inputs. -/
def upload0 : Upload :=
  { id := 1
    filename := "a.png"
    created_at := "2024-01-01T00:00:00"
    risk_score := some 0
    signals := []
    advice := [] }

/-- A concrete client state with one selected file, one live preview and a
stale error message, for evaluating the theorems at explicit inputs. -/
def cOne : ClientState :=
  { activeTab := "dashboard"
    files := ["a.png"]
    previews := [0]
    profileUrl := "https://example.com/@alice"
    profileBio := ""
    conversationText := ""
    notes := "check this"
    uploads := [upload0]
    error := some "old failure"
    isSubmitting := false }

/-- The world around cOne: URL 0 is live, URL 1 is the next fresh one. -/
def wOne : World := ⟨cOne, ⟨1, [0]⟩⟩

/-- The world wOne with a submit request in flight. -/
def wBusy : World := ⟨{ cOne with isSubmitting := true, error := none }, ⟨1, [0]⟩⟩

/-- C1: for every submit attempt with zero files selected, handleSubmit stores
the validation error "Add at least one image" (rendered under the submit
button), leaves all other state unchanged, and issues no network request, so
uploadImage is never invoked. -/
theorem C1_zero_files_no_network (w : World) (uo : UploadOutcome)
    (fo : FetchOutcome) (h : w.client.files = []) :
    handleSubmit uo fo w =
      (⟨{ w.client with error := some "Add at least one image" }, w.env⟩, []) := by
  simp [handleSubmit, h]

/-- Evaluates C1 at the initial state, which has no files selected. -/
theorem C1_zero_files_no_network_witness :
    handleSubmit .ok (.ok []) initWorld =
      (⟨{ initWorld.client with error := some "Add at least one image" },
         initWorld.env⟩, []) :=
  C1_zero_files_no_network initWorld .ok (.ok []) rfl

/-- C4: handleFileChange replaces the current selection with exactly the first
5 entries of the incoming file list; when the list has at most 5 entries the
whole list becomes the selection. -/
theorem C4_selection_truncated_to_five (w : World) (l : List File) :
    (applyFileChange w (some l)).client.files = l.take 5 ∧
      (l.length ≤ 5 → (applyFileChange w (some l)).client.files = l) := by
  constructor
  · rfl
  · intro h
    simp [applyFileChange, selectFiles, List.take_of_length_le h]

/-- Evaluates C4 on a 7-element file list: the selection becomes the first 5. -/
theorem C4_selection_truncated_to_five_witness :
    (applyFileChange initWorld
        (some ["a", "b", "c", "d", "e", "f", "g"])).client.files =
        ["a", "b", "c", "d", "e", "f", "g"].take 5 ∧
      (["a", "b", "c", "d", "e", "f", "g"].length ≤ 5 →
        (applyFileChange initWorld
            (some ["a", "b", "c", "d", "e", "f", "g"])).client.files =
          ["a", "b", "c", "d", "e", "f", "g"]) :=
  C4_selection_truncated_to_five initWorld ["a", "b", "c", "d", "e", "f", "g"]

/-- C10: a file-change event whose file list is missing (null/undefined in the
DOM event) yields the empty selection and empty previews, and in general the
resulting selection is the total function selectFiles of the input, so every
file-change event produces a well-defined selection. -/
theorem C10_missing_file_list_is_empty (w : World) :
    (applyFileChange w none).client.files = [] ∧
      (applyFileChange w none).client.previews = [] ∧
      (∀ input, (applyFileChange w input).client.files = selectFiles input) :=
  ⟨rfl, rfl, fun _ => rfl⟩

/-- C7: refresh replaces the uploads list with the fetched data on success; on
failure it records the error message and leaves everything else — in
particular the uploads list already shown — unchanged. -/
theorem C7_refresh_replace_or_keep (c : ClientState) (fo : FetchOutcome) :
    (∀ d, fetchUploadsResult fo = .ok d →
        refreshState fo c = { c with uploads := d }) ∧
      (∀ m, fetchUploadsResult fo = .error m →
        refreshState fo c = { c with error := some m }) := by
  cases fo <;> simp [refreshState, fetchUploadsResult]

/-- Evaluates C7 at a successful fetch against the concrete state cOne. -/
theorem C7_refresh_replace_or_keep_witness :
    refreshState (.ok []) cOne = { cOne with uploads := [] } :=
  (C7_refresh_replace_or_keep cOne (.ok [])).1 [] rfl

/-- C2 counterexample: a create that fails with a network error (the fetch
rejects, so there is no server response body at all) leaves the error slot
holding the rejection's own message, not the generic fallback
"Upload failed" that the claim prescribes when no non-empty server body
exists. -/
theorem C2_counterexample :
    (handleSubmit (.netErr "Failed to fetch") (.ok []) wOne).1.client.error =
        some "Failed to fetch" ∧
      some "Failed to fetch" ≠ some "Upload failed" := by
  refine ⟨rfl, by decide⟩

/-- C2 amended: for every submit attempt whose create request fails, the
uploads list, the four text fields, the file selection and the previews are
all unchanged (only error and isSubmitting move), and the error slot holds the
message thrown by uploadImage — for a non-2xx response that is the server's
body text when non-empty and otherwise the fallback "Upload failed", while for
a rejected fetch it is the rejection's own message. -/
theorem C2_failed_create_frame (w : World) (uo : UploadOutcome)
    (fo : FetchOutcome) (m : String) (hFiles : w.client.files ≠ [])
    (hErr : uploadImageResult uo = .error m) :
    (handleSubmit uo fo w).1 =
        ⟨{ w.client with error := some m, isSubmitting := false }, w.env⟩ ∧
      (∀ body, uo = .notOk body →
        m = if body = "" then "Upload failed" else body) := by
  constructor
  · have hlen : ¬ w.client.files.length = 0 := by
      simpa [List.length_eq_zero] using hFiles
    simp [handleSubmit, hlen, hErr, submitFinish, submitStartState]
  · rintro body rfl
    simp [uploadImageResult] at hErr
    exact hErr.symm

/-- Evaluates the amended C2 at a 500-style response with body "boom". -/
theorem C2_failed_create_frame_witness :
    (handleSubmit (.notOk "boom") (.ok []) wOne).1 =
        ⟨{ wOne.client with error := some "boom", isSubmitting := false },
          wOne.env⟩ ∧
      (∀ body, UploadOutcome.notOk "boom" = .notOk body →
        "boom" = if body = "" then "Upload failed" else body) :=
  C2_failed_create_frame wOne (.notOk "boom") (.ok []) "boom"
    (by decide) (by simp [uploadImageResult])

/-- C3: for every submit attempt whose create request succeeds, the selection,
previews and all four text fields are cleared, the submitting flag is back to
false, the GET that re-fetches the uploads list is issued (and whenever that
fetch succeeds the uploads list equals the fetched data), and the active tab
is switched to "recent". -/
theorem C3_success_clears_and_switches (w : World) (uo : UploadOutcome)
    (fo : FetchOutcome) (hFiles : w.client.files ≠ [])
    (hOk : uploadImageResult uo = .ok ()) :
    (handleSubmit uo fo w).1.client.files = [] ∧
      (handleSubmit uo fo w).1.client.previews = [] ∧
      (handleSubmit uo fo w).1.client.profileUrl = "" ∧
      (handleSubmit uo fo w).1.client.profileBio = "" ∧
      (handleSubmit uo fo w).1.client.conversationText = "" ∧
      (handleSubmit uo fo w).1.client.notes = "" ∧
      (handleSubmit uo fo w).1.client.activeTab = "recent" ∧
      (handleSubmit uo fo w).1.client.isSubmitting = false ∧
      NetCall.getUploads ∈ (handleSubmit uo fo w).2 ∧
      (∀ d, fetchUploadsResult fo = .ok d →
        (handleSubmit uo fo w).1.client.uploads = d) := by
  have hlen : ¬ w.client.files.length = 0 := by
    simpa [List.length_eq_zero] using hFiles
  cases uo with
  | netErr msg => simp [uploadImageResult] at hOk
  | notOk body => simp [uploadImageResult] at hOk
  | ok =>
    cases fo <;>
      simp [handleSubmit, hlen, uploadImageResult, submitFinish,
        submitStartState, refreshState, fetchUploadsResult, previewEffect,
        createUrls]

/-- Evaluates C3 at the concrete one-file state with both requests succeeding. -/
theorem C3_success_clears_and_switches_witness :
    (handleSubmit .ok (.ok [upload0]) wOne).1.client.files = [] ∧
      (handleSubmit .ok (.ok [upload0]) wOne).1.client.previews = [] ∧
      (handleSubmit .ok (.ok [upload0]) wOne).1.client.profileUrl = "" ∧
      (handleSubmit .ok (.ok [upload0]) wOne).1.client.profileBio = "" ∧
      (handleSubmit .ok (.ok [upload0]) wOne).1.client.conversationText = "" ∧
      (handleSubmit .ok (.ok [upload0]) wOne).1.client.notes = "" ∧
      (handleSubmit .ok (.ok [upload0]) wOne).1.client.activeTab = "recent" ∧
      (handleSubmit .ok (.ok [upload0]) wOne).1.client.isSubmitting = false ∧
      NetCall.getUploads ∈ (handleSubmit .ok (.ok [upload0]) wOne).2 ∧
      (∀ d, fetchUploadsResult (.ok [upload0]) = .ok d →
        (handleSubmit .ok (.ok [upload0]) wOne).1.client.uploads = d) :=
  C3_success_clears_and_switches wOne .ok (.ok [upload0]) (by decide) rfl

/-- C6 counterexample: a refresh attempt that completes successfully (it
replaces the uploads list) leaves the stale error from an earlier attempt
visible, contradicting the claim that every new attempt clears the previous
error before succeeding silently. -/
theorem C6_counterexample :
    (refreshState (.ok []) cOne).uploads = [] ∧
      (refreshState (.ok []) cOne).error = some "old failure" ∧
      some "old failure" ≠ (none : Option String) := by
  refine ⟨rfl, rfl, by decide⟩

/-- C6 amended: a submit attempt that passes validation clears the previous
error before the request is made (and a zero-file submit replaces it with the
validation message, per C1); a refresh attempt however does not clear a stale
error — on success the error slot is left exactly as it was, and only on
failure is it overwritten with the new message. -/
theorem C6_submit_clears_refresh_does_not (w w' : World) (c : ClientState)
    (fo : FetchOutcome) (hs : Step w .submitStart w') :
    w'.client.error = none ∧
      (∀ d, fetchUploadsResult fo = .ok d →
        (refreshState fo c).error = c.error) ∧
      (∀ m, fetchUploadsResult fo = .error m →
        (refreshState fo c).error = some m) := by
  refine ⟨?_, ?_, ?_⟩
  · cases hs with
    | stepSubmitStart hIdle hFiles => rfl
  · intro d hd
    cases fo <;> simp_all [refreshState, fetchUploadsResult]
  · intro m hm
    cases fo <;> simp_all [refreshState, fetchUploadsResult]

/-- Evaluates the amended C6: a concrete submit start from wOne, and a
concrete successful refresh against the stale-error state cOne. -/
theorem C6_submit_clears_refresh_does_not_witness :
    (submitStartState wOne).client.error = none ∧
      (∀ d, fetchUploadsResult (.ok []) = .ok d →
        (refreshState (.ok []) cOne).error = cOne.error) ∧
      (∀ m, fetchUploadsResult (.ok []) = .error m →
        (refreshState (.ok []) cOne).error = some m) :=
  C6_submit_clears_refresh_does_not wOne (submitStartState wOne) cOne (.ok [])
    (Step.stepSubmitStart wOne rfl (by decide))

/-- Revoking, one by one, exactly the URLs that are live empties the registry. -/
theorem foldl_revoke_all (l : List Url) (e : UrlEnv) (h : e.live = l) :
    (l.foldl revokeObjectURL e).live = [] := by
  induction l generalizing e with
  | nil => simpa using h
  | cons a t ih =>
    simp only [List.foldl_cons]
    exact ih _ (by simp [revokeObjectURL, h])

/-- createUrls appends one fresh live URL per file, in order. -/
theorem createUrls_live_append (fs : List File) (e : UrlEnv) :
    ((createUrls e fs).1).live = e.live ++ (createUrls e fs).2 ∧
      (createUrls e fs).2.length = fs.length := by
  induction fs generalizing e with
  | nil => simp [createUrls]
  | cons f t ih =>
    simp only [createUrls, createObjectURL]
    refine ⟨?_, ?_⟩
    · rw [(ih _).1]
      simp
    · simpa using (ih _).2

/-- The [files] effect keeps the registry in lockstep with the previews: when
the live URLs were exactly the old previews, afterwards they are exactly the
new previews, one per selected file. -/
theorem previewEffect_lockstep (e : UrlEnv) (old : List Url) (fs : List File)
    (h : e.live = old) :
    ((previewEffect e old fs).1).live = (previewEffect e old fs).2 ∧
      (previewEffect e old fs).2.length = fs.length := by
  unfold previewEffect
  have h0 := foldl_revoke_all old e h
  have h1 := createUrls_live_append fs (old.foldl revokeObjectURL e)
  exact ⟨by rw [h1.1, h0, List.nil_append], h1.2⟩

/-- The lockstep invariant between the URL registry, the previews state and
the files state. -/
def UrlInv (w : World) : Prop :=
  w.env.live = w.client.previews ∧
    w.client.previews.length = w.client.files.length

/-- Every client transition preserves the lockstep invariant. -/
theorem urlInv_preserved {w w' : World} {a : Act} (hInv : UrlInv w)
    (hs : Step w a w') : UrlInv w' := by
  cases hs with
  | stepFileChange input =>
    have h := previewEffect_lockstep w.env w.client.previews
      (selectFiles input) hInv.1
    exact ⟨h.1, h.2⟩
  | stepSubmitReject hIdle hEmpty => exact hInv
  | stepSubmitStart hIdle hFiles => exact hInv
  | stepSubmitSettle uo fo hBusy =>
    cases huo : uploadImageResult uo with
    | ok u =>
      have h := previewEffect_lockstep w.env w.client.previews [] hInv.1
      cases fo <;>
        simp_all [UrlInv, submitFinish, refreshState, fetchUploadsResult]
    | error msg => simp_all [UrlInv, submitFinish]
  | stepRefresh fo =>
    cases fo <;> simp_all [UrlInv, refreshState, fetchUploadsResult]
  | stepSetTab t => exact hInv
  | stepSetProfileUrl v => exact hInv
  | stepSetProfileBio v => exact hInv
  | stepSetConversationText v => exact hInv
  | stepSetNotes v => exact hInv

/-- C5: in every reachable client state the live (created and not yet revoked)
preview object URLs are exactly the current previews, and their number equals
the number of currently selected files: each selection change creates one URL
per newly selected file and revokes every URL of the previous selection. -/
theorem C5_live_urls_equal_selection (w : World) (h : Reachable w) :
    w.env.live = w.client.previews ∧
      w.env.live.length = w.client.files.length := by
  have hInv : UrlInv w := by
    induction h with
    | refl => exact ⟨rfl, rfl⟩
    | tail hab hbc ih =>
      obtain ⟨a, hstep⟩ := hbc
      exact urlInv_preserved ih hstep
  exact ⟨hInv.1, by rw [hInv.1]; exact hInv.2⟩

/-- Evaluates C5 at the initial state, which is reachable by the empty run. -/
theorem C5_live_urls_equal_selection_witness :
    initWorld.env.live = initWorld.client.previews ∧
      initWorld.env.live.length = initWorld.client.files.length :=
  C5_live_urls_equal_selection initWorld Relation.ReflTransGen.refl

/-- C8: while a submit request is in flight (isSubmitting = true, so the
submit button is disabled), no submitStart transition is possible from that
state, and every transition other than the settling of the in-flight request
keeps the flag set — hence no second create request can start until the first
one completes with success or failure. -/
theorem C8_no_second_create_in_flight (w : World)
    (hBusy : w.client.isSubmitting = true) :
    (∀ w', ¬ Step w .submitStart w') ∧
      (∀ a w', Step w a w' → (∀ uo fo, a ≠ .submitSettle uo fo) →
        w'.client.isSubmitting = true) := by
  constructor
  · intro w' hstep
    cases hstep with
    | stepSubmitStart hIdle hFiles => rw [hBusy] at hIdle; cases hIdle
  · intro a w' hstep hne
    cases hstep with
    | stepFileChange input => simpa [applyFileChange] using hBusy
    | stepSubmitReject hIdle hEmpty =>
      rw [hBusy] at hIdle; exact Bool.noConfusion hIdle
    | stepSubmitStart hIdle hFiles =>
      rw [hBusy] at hIdle; exact Bool.noConfusion hIdle
    | stepSubmitSettle uo fo hB => exact absurd rfl (hne uo fo)
    | stepRefresh fo =>
      cases fo <;> simpa [refreshState, fetchUploadsResult] using hBusy
    | stepSetTab t => exact hBusy
    | stepSetProfileUrl v => exact hBusy
    | stepSetProfileBio v => exact hBusy
    | stepSetConversationText v => exact hBusy
    | stepSetNotes v => exact hBusy

/-- Evaluates C8 at the concrete in-flight state wBusy. -/
theorem C8_no_second_create_in_flight_witness :
    (∀ w', ¬ Step wBusy .submitStart w') ∧
      (∀ a w', Step wBusy a w' → (∀ uo fo, a ≠ .submitSettle uo fo) →
        w'.client.isSubmitting = true) :=
  C8_no_second_create_in_flight wBusy rfl

/-- Filtering the file parts by their own key keeps all of them. -/
theorem filter_fileParts_same (files : List File) :
    (files.map (fun f => ("files", FormPart.file f))).filter
        (fun p => p.1 == "files") =
      files.map (fun f => ("files", FormPart.file f)) := by
  induction files with
  | nil => rfl
  | cons f t ih => simp [List.filter, ih]

/-- Filtering the file parts by any other key drops all of them. -/
theorem filter_fileParts_other (files : List File) (k : String)
    (hk : ("files" == k) = false) :
    (files.map (fun f => ("files", FormPart.file f))).filter
        (fun p => p.1 == k) = [] := by
  induction files with
  | nil => rfl
  | cons f t ih => simp [List.filter, hk, ih]

/-- C9: in the FormData built by uploadImage, every selected file appears as a
part under the key "files", and each of the four optional text fields
contributes exactly one string part under its key when its value is non-empty
and no part at all when its value is the empty string. -/
theorem C9_form_fields_iff_nonempty (files : List File)
    (pu n pb ct : String) :
    (uploadImageForm files pu n pb ct).filter (fun p => p.1 == "files") =
        files.map (fun f => ("files", FormPart.file f)) ∧
      (uploadImageForm files pu n pb ct).filter
          (fun p => p.1 == "profile_url") =
        (if pu = "" then [] else [("profile_url", FormPart.str pu)]) ∧
      (uploadImageForm files pu n pb ct).filter (fun p => p.1 == "notes") =
        (if n = "" then [] else [("notes", FormPart.str n)]) ∧
      (uploadImageForm files pu n pb ct).filter
          (fun p => p.1 == "profile_bio") =
        (if pb = "" then [] else [("profile_bio", FormPart.str pb)]) ∧
      (uploadImageForm files pu n pb ct).filter
          (fun p => p.1 == "conversation_text") =
        (if ct = "" then [] else [("conversation_text", FormPart.str ct)]) := by
  unfold uploadImageForm
  refine ⟨?_, ?_, ?_, ?_, ?_⟩
  · simp only [List.filter_append, filter_fileParts_same]
    split_ifs <;> simp [List.filter]
  · simp only [List.filter_append,
      filter_fileParts_other files "profile_url" (by decide)]
    split_ifs <;> simp_all [List.filter]
  · simp only [List.filter_append,
      filter_fileParts_other files "notes" (by decide)]
    split_ifs <;> simp_all [List.filter]
  · simp only [List.filter_append,
      filter_fileParts_other files "profile_bio" (by decide)]
    split_ifs <;> simp_all [List.filter]
  · simp only [List.filter_append,
      filter_fileParts_other files "conversation_text" (by decide)]
    split_ifs <;> simp_all [List.filter]
